import Mathlib

/-!
# Service-Platform backend: shallow embedding and verification

A shallow embedding of the services-marketplace backend routes
(`backend/routes` service search, booking creation, booking status
update, availability computation) and of the socket-server accessor
`getIO` from `backend/lib/socket.js`, together with theorems settling
the frozen claims about them.

Modelling conventions:
* `HH:MM` times are kept as `String` (as the database stores them); the
  moment-style parse of a time-of-day is `parseHHMM`, returning minutes
  after midnight.  The persistence layer's lexicographic string `lte`
  (used by the booking conflict query) is `strLe`, a byte-wise
  lexicographic comparison on the characters.
* Money, ratings and coordinates are `ℚ` (the claims under test do not
  depend on IEEE-754 rounding).  The Haversine `calculateDistance` is
  transcendental over doubles, hence not representable as an executable
  rational function; the search pipeline is therefore parameterised by
  the distance function `calcDist`, and every theorem about the pipeline
  holds for an arbitrary such function.
* JavaScript truthiness on a nullable numeric column (`null`, `0` are
  falsy) is `jsTruthyQ` on `Option ℚ`.
* Prisma `update` semantics: a data field whose value is `undefined` is
  left unchanged; `null` clears it.  This is modelled explicitly in
  `updateBookingStatus`.
* `Array.prototype.sort` with a numeric comparator is modelled by the
  stable `List.insertionSort` on the corresponding `≤` relation (V8's
  sort is stable, and a numeric comparator `ka - kb` orders ascending by
  key, keeping ties in encounter order).
-/

namespace ServicePlatform

/-- Numeric value of an ASCII digit character. -/
def digitVal (c : Char) : Nat := c.toNat - 48

/-- Minutes after midnight denoted by an `HH:MM` (or `H:MM`) string, the
time-of-day semantics moment gives `` `${date} ${time}` `` strings.
Malformed strings map to 0; route validation guarantees the format. -/
def parseHHMM (s : String) : Nat :=
  match s.data with
  | [h1, h2, c, m1, m2] =>
      if c = ':' then (digitVal h1 * 10 + digitVal h2) * 60 + (digitVal m1 * 10 + digitVal m2)
      else 0
  | [h1, c, m1, m2] =>
      if c = ':' then digitVal h1 * 60 + (digitVal m1 * 10 + digitVal m2)
      else 0
  | _ => 0

/-- `n.toString().padStart(2, '0')` for the two-digit numbers appearing in
the slot grid. -/
def pad2 (n : Nat) : String :=
  if n < 10 then "0" ++ String.mk [Nat.digitChar n]
  else String.mk [Nat.digitChar (n / 10), Nat.digitChar (n % 10)]

/-- Lexicographic strict comparison of character lists (byte order, the
order a relational store applies to ASCII `HH:MM` strings). -/
def strLtb : List Char → List Char → Bool
  | [], [] => false
  | [], _ :: _ => true
  | _ :: _, [] => false
  | a :: as, b :: bs => if a < b then true else if b < a then false else strLtb as bs

/-- The persistence layer's string `lte` filter: `a ≤ b` lexicographically. -/
def strLe (a b : String) : Bool := !(strLtb b.data a.data)

/-- JavaScript truthiness of a nullable numeric field: `null` and `0` are
falsy. -/
def jsTruthyQ : Option ℚ → Bool
  | none => false
  | some v => v != 0

/-- Booking lifecycle status. -/
inductive BookingStatus where
  | PENDING
  | CONFIRMED
  | IN_PROGRESS
  | COMPLETED
  | CANCELLED
deriving DecidableEq

/-- The statuses the conflict query treats as active:
`{ in: ['PENDING', 'CONFIRMED', 'IN_PROGRESS'] }`. -/
def activeStatuses : List BookingStatus :=
  [.PENDING, .CONFIRMED, .IN_PROGRESS]

/-- The user fields the search route selects (`latitude`, `longitude` are
nullable columns). -/
structure GeoUser where
  id : Nat
  latitude : Option ℚ
  longitude : Option ℚ
deriving DecidableEq

/-- Provider row with its included user. -/
structure ProviderRec where
  id : Nat
  userId : Nat
  isAvailable : Bool
  averageRating : ℚ
  user : GeoUser
deriving DecidableEq

/-- Service row with its included category name and provider. -/
structure ServiceRec where
  id : Nat
  categoryName : String
  basePrice : ℚ
  duration : Nat
  isActive : Bool
  createdAt : Nat
  provider : ProviderRec
deriving DecidableEq

/-- Booking row. -/
structure BookingRec where
  id : Nat
  bookingId : String
  customerId : Nat
  serviceId : Nat
  providerId : Nat
  scheduledDate : String
  scheduledTime : String
  duration : Nat
  totalPrice : ℚ
  status : BookingStatus
  notes : Option String
  cancellationReason : Option String
deriving DecidableEq

/-- The persisted state the bookings routes read and write. -/
structure BookingsDb where
  services : List ServiceRec
  providers : List ProviderRec
  bookings : List BookingRec
deriving DecidableEq

/-! ## Availability Calculator (`GET /availability/:serviceId`) -/

/-- One emitted slot (`{ time, available: true }`). -/
structure TimeSlotOut where
  time : String
  available : Bool
deriving DecidableEq

/-- The fixed 30-minute business-hours grid: `hour` from 9 to 17, `minute`
in `{0, 30}`, formatted with `padStart(2, '0')`. -/
def slotTimes : List String :=
  (List.range' 9 9).flatMap (fun hour =>
    [0, 30].map (fun minute => pad2 hour ++ ":" ++ pad2 minute))

/-- The per-booking conflict test of the availability loop:
`slotStart.isBefore(bookingEnd) && slotEnd.isAfter(bookingStart)` on the
moment-parsed times (both on the same queried date, so the comparison is
on minutes after midnight). `b` is a `(scheduledTime, duration)` pair as
selected by the query. -/
def slotConflicts (svcDuration : Nat) (time : String) (b : String × Nat) : Bool :=
  let bookingStart := parseHHMM b.1
  let bookingEnd := bookingStart + b.2
  let slotStart := parseHHMM time
  let slotEnd := slotStart + svcDuration
  decide (slotStart < bookingEnd) && decide (slotEnd > bookingStart)

/-- The `timeSlots` array built by the loop: a slot is pushed only when no
existing booking conflicts, always tagged `available := true`. -/
def timeSlotsFor (svcDuration : Nat) (existing : List (String × Nat)) : List TimeSlotOut :=
  slotTimes.filterMap (fun time =>
    let isAvailable := !(existing.any (slotConflicts svcDuration time))
    if isAvailable then some { time := time, available := true } else none)

/-- Result of the availability endpoint. -/
inductive AvailabilityResult where
  | notFound (error : String)
  | ok (timeSlots : List TimeSlotOut)
deriving DecidableEq

/-- `GET /availability/:serviceId?date=`: find the active service, query
the provider's CONFIRMED/IN_PROGRESS bookings on the date (selecting
`scheduledTime` and `duration`), and emit the available slots. -/
def getAvailability (db : BookingsDb) (serviceId : Nat) (date : String) : AvailabilityResult :=
  match db.services.find? (fun s => s.id == serviceId && s.isActive) with
  | none => .notFound "Service not found"
  | some service =>
      let existingBookings :=
        (db.bookings.filter (fun b =>
          b.providerId == service.provider.id && b.scheduledDate == date &&
          [BookingStatus.CONFIRMED, BookingStatus.IN_PROGRESS].contains b.status)).map
            (fun b => (b.scheduledTime, b.duration))
      .ok (timeSlotsFor service.duration existingBookings)

/-- The slots of an availability response (empty on the 404 path). -/
def AvailabilityResult.slots : AvailabilityResult → List TimeSlotOut
  | .notFound _ => []
  | .ok ts => ts

/-! ## Socket layer (`backend/lib/socket.js`) -/

/-- Opaque handle to an initialised socket server (`let io` module state). -/
structure SocketServer where
  handle : Nat
deriving DecidableEq

/-- `getIO`: returns the module-level server handle, throwing when the
server was never initialised. -/
def getIO (sock : Option SocketServer) : Except String SocketServer :=
  match sock with
  | none => Except.error "Socket.io not initialized"
  | some i => Except.ok i

/-- A realtime emission performed by a booking route (room, event, booking
payload). -/
structure Emit where
  room : String
  event : String
  booking : BookingRec
deriving DecidableEq

/-! ## Booking creation (`POST /` of the bookings router) -/

/-- HTTP outcome of the create-booking handler (only the paths the handler
itself takes; validation failures happen before it). -/
inductive CreateResult where
  | created (booking : BookingRec)
  | badRequest (error : String)
  | notFound (error : String)
deriving DecidableEq

/-- HTTP status code of a create outcome. -/
def CreateResult.statusCode : CreateResult → Nat
  | .created _ => 201
  | .badRequest _ => 400
  | .notFound _ => 404

/-- The `conflictingBookings` query predicate of `POST /`: same provider,
same `scheduledDate`, status in `{PENDING, CONFIRMED, IN_PROGRESS}`, and
(the sole interval clause actually present) `scheduledTime lte` the
requested time as a string comparison. -/
def conflictsWith (providerId : Nat) (scheduledDate scheduledTime : String)
    (b : BookingRec) : Bool :=
  b.providerId == providerId && b.scheduledDate == scheduledDate &&
  activeStatuses.contains b.status && strLe b.scheduledTime scheduledTime

/-- `POST /` (create booking), after request validation.  `newId` and
`newUuid` stand for the autoincrement id and the fresh `uuidv4()`;
`sock` is the socket-module state at emission time.  Returns the HTTP
outcome, the new database state, and the realtime emissions performed.
The created row copies `duration` and `basePrice` from the service and
starts in the schema-default status `PENDING`.  The socket emission is
wrapped in try/catch: on `getIO` failure it is only logged. -/
def createBooking (db : BookingsDb) (newId : Nat) (newUuid : String)
    (customerId serviceId : Nat) (scheduledDate scheduledTime : String)
    (notes : Option String) (sock : Option SocketServer) :
    CreateResult × BookingsDb × List Emit :=
  match db.services.find? (fun s => s.id == serviceId && s.isActive) with
  | none => (.notFound "Service not found", db, [])
  | some service =>
      if !service.provider.isAvailable then
        (.badRequest "Provider is currently unavailable", db, [])
      else
        let conflictingBookings :=
          db.bookings.filter (conflictsWith service.provider.id scheduledDate scheduledTime)
        if conflictingBookings.length > 0 then
          (.badRequest "Time slot is not available", db, [])
        else
          let booking : BookingRec :=
            { id := newId, bookingId := newUuid, customerId,
              serviceId := service.id, providerId := service.provider.id,
              scheduledDate, scheduledTime,
              duration := service.duration, totalPrice := service.basePrice,
              status := .PENDING, notes, cancellationReason := none }
          let db' := { db with bookings := db.bookings ++ [booking] }
          let emits :=
            match getIO sock with
            | .ok _ => [{ room := "user_" ++ toString service.provider.userId,
                          event := "new_booking", booking := booking }]
            | .error _ => []
          (.created booking, db', emits)

/-! ## Booking status update (`PATCH /:bookingId/status`) -/

/-- HTTP outcome of the status-update handler. -/
inductive UpdateResult where
  | updated (booking : BookingRec)
  | notFound (error : String)
deriving DecidableEq

/-- The `findFirst` predicate of the status route: the row with this
external `bookingId` whose owning provider's associated user is the
authenticated caller. -/
def ownedBookingWith (db : BookingsDb) (bookingId : String) (userId : Nat)
    (b : BookingRec) : Bool :=
  b.bookingId == bookingId &&
  db.providers.any (fun p => p.id == b.providerId && p.userId == userId)

/-- `PATCH /:bookingId/status`, after validation (`status` is one of
CONFIRMED, IN_PROGRESS, COMPLETED, CANCELLED).  Prisma `update` data:
`cancellationReason: status === 'CANCELLED' ? cancellationReason : null`,
where an `undefined` value (reason absent on a CANCELLED target) leaves
the stored column unchanged and `null` clears it. -/
def updateBookingStatus (db : BookingsDb) (bookingId : String)
    (status : BookingStatus) (cancellationReason : Option String)
    (userId : Nat) (sock : Option SocketServer) :
    UpdateResult × BookingsDb × List Emit :=
  match db.bookings.find? (ownedBookingWith db bookingId userId) with
  | none => (.notFound "Booking not found", db, [])
  | some booking =>
      let newReason : Option String :=
        if status = .CANCELLED then
          match cancellationReason with
          | some r => some r
          | none => booking.cancellationReason
        else none
      let updatedBooking : BookingRec :=
        { booking with status := status, cancellationReason := newReason }
      let db' := { db with
        bookings := db.bookings.map (fun b => if b.id == booking.id then updatedBooking else b) }
      let emits :=
        match getIO sock with
        | .ok _ => [{ room := "user_" ++ toString booking.customerId,
                      event := "booking_update", booking := updatedBooking }]
        | .error _ => []
      (.updated updatedBooking, db', emits)

/-! ## The intended no-overlap invariant (spec §3) -/

/-- Open-interval overlap of `[t1, t1+d1)` and `[t2, t2+d2)` in minutes. -/
def overlapsIntervals (t1 d1 t2 d2 : Nat) : Prop :=
  t1 < t2 + d2 ∧ t2 < t1 + d1

instance (t1 d1 t2 d2 : Nat) : Decidable (overlapsIntervals t1 d1 t2 d2) := by
  unfold overlapsIntervals; infer_instance

/-- The spec's intended invariant: no two distinct active bookings of the
same provider on the same date overlap. -/
def noOverlapInvariant (bookings : List BookingRec) : Prop :=
  ∀ b1 ∈ bookings, ∀ b2 ∈ bookings,
    b1.id ≠ b2.id → b1.providerId = b2.providerId →
    b1.scheduledDate = b2.scheduledDate →
    b1.status ∈ activeStatuses → b2.status ∈ activeStatuses →
    ¬ overlapsIntervals (parseHHMM b1.scheduledTime) b1.duration
        (parseHHMM b2.scheduledTime) b2.duration

instance (bookings : List BookingRec) : Decidable (noOverlapInvariant bookings) := by
  unfold noOverlapInvariant; infer_instance

/-! ## Service search (`GET /services`) -/

/-- Boolean list-prefix test on characters. -/
def isPrefixOfChars : List Char → List Char → Bool
  | [], _ => true
  | _ :: _, [] => false
  | a :: as, b :: bs => a == b && isPrefixOfChars as bs

/-- Boolean list-infix test on characters. -/
def isInfixOfChars (needle : List Char) : List Char → Bool
  | [] => needle.isEmpty
  | c :: rest => isPrefixOfChars needle (c :: rest) || isInfixOfChars needle rest

/-- Case-insensitive substring match, the `contains`/`mode: 'insensitive'`
category filter. -/
def containsCI (hay needle : String) : Bool :=
  isInfixOfChars (needle.data.map Char.toLower) (hay.data.map Char.toLower)

/-- The `sortBy` query values. -/
inductive SortBy where
  | price
  | rating
  | distance
  | newest
deriving DecidableEq

/-- The (validated) query parameters of `GET /services`.  `none` models an
absent optional parameter; defaults `minRating = 0`, `sortBy = newest`,
`page = 1`, `limit = 20` are applied by the destructuring, so they are
plain fields here.  Validation guarantees `1 ≤ page` and `1 ≤ limit ≤ 50`. -/
structure SearchQuery where
  category : Option String
  minRating : ℚ
  maxDistance : Option ℚ
  minPrice : Option ℚ
  maxPrice : Option ℚ
  latitude : Option ℚ
  longitude : Option ℚ
  sortBy : SortBy
  page : Nat
  limit : Nat
deriving DecidableEq

/-- The persistence `whereClause`: active service, available provider with
rating ≥ `minRating`, optional case-insensitive category substring and
price-range filters. -/
def matchesWhere (q : SearchQuery) (s : ServiceRec) : Bool :=
  s.isActive && s.provider.isAvailable &&
  decide (q.minRating ≤ s.provider.averageRating) &&
  (match q.category with
   | none => true
   | some c => containsCI s.categoryName c) &&
  (match q.minPrice with
   | none => true
   | some p => decide (p ≤ s.basePrice)) &&
  (match q.maxPrice with
   | none => true
   | some p => decide (s.basePrice ≤ p))

/-- A returned service object; `distance` models the attached `distance`
field (`none` both when the field is absent and when it is `null`). -/
structure ServiceOut where
  service : ServiceRec
  distance : Option ℚ
deriving DecidableEq

/-- `a.distance || Infinity`: `null` and `0` are falsy, so both fall back
to `Infinity` (`⊤`). -/
def jsOrInf : Option ℚ → WithTop ℚ
  | none => ⊤
  | some d => if d = 0 then ⊤ else (d : WithTop ℚ)

/-- Pagination metadata of the search response. -/
structure Pagination where
  currentPage : Nat
  totalPages : Nat
  totalCount : Nat
  hasNext : Bool
  hasPrev : Bool
deriving DecidableEq

/-- The search response body. -/
structure SearchResponse where
  services : List ServiceOut
  pagination : Pagination
deriving DecidableEq

/-- `GET /services`, parameterised by the distance function `calcDist`
standing for the Haversine `calculateDistance` (see the module comment).
Mirrors the handler's order of operations: `findMany` with `skip`/`take`,
then the in-memory distance filter (only when latitude, longitude and
`maxDistance` are all supplied; a provider with a missing-or-zero
coordinate is dropped), then distance attachment (when latitude and
longitude are supplied; missing-or-zero coordinates attach `null`), then
the sort, and a `count` over the same `whereClause` for the metadata. -/
def searchServices (calcDist : ℚ → ℚ → ℚ → ℚ → ℚ) (db : List ServiceRec)
    (q : SearchQuery) : SearchResponse :=
  let skip := (q.page - 1) * q.limit
  let take := q.limit
  let matching := db.filter (matchesWhere q)
  let page := (matching.drop skip).take take
  let services0 := page.map (fun s => ServiceOut.mk s none)
  let services1 :=
    match q.latitude, q.longitude, q.maxDistance with
    | some lat, some lon, some maxD =>
        services0.filter (fun s =>
          let providerLat := s.service.provider.user.latitude
          let providerLon := s.service.provider.user.longitude
          jsTruthyQ providerLat && jsTruthyQ providerLon &&
          decide (calcDist lat lon (providerLat.getD 0) (providerLon.getD 0) ≤ maxD))
    | _, _, _ => services0
  let services2 :=
    match q.latitude, q.longitude with
    | some lat, some lon =>
        services1.map (fun s =>
          let providerLat := s.service.provider.user.latitude
          let providerLon := s.service.provider.user.longitude
          let distance :=
            if jsTruthyQ providerLat && jsTruthyQ providerLon then
              some (calcDist lat lon (providerLat.getD 0) (providerLon.getD 0))
            else none
          { s with distance := distance })
    | _, _ => services1
  let sorted :=
    match q.sortBy with
    | .price => List.insertionSort (fun a b => a.service.basePrice ≤ b.service.basePrice) services2
    | .rating => List.insertionSort (fun a b => b.service.provider.averageRating ≤ a.service.provider.averageRating) services2
    | .distance =>
        match q.latitude, q.longitude with
        | some _, some _ => List.insertionSort (fun a b => jsOrInf a.distance ≤ jsOrInf b.distance) services2
        | _, _ => services2
    | .newest => List.insertionSort (fun a b => b.service.createdAt ≤ a.service.createdAt) services2
  let totalCount := matching.length
  { services := sorted,
    pagination :=
      { currentPage := q.page,
        totalPages := (totalCount + take - 1) / take,
        totalCount := totalCount,
        hasNext := decide (skip + take < totalCount),
        hasPrev := decide (1 < q.page) } }

/-! ## Concrete fixtures used by the witnesses -/

/-- A provider's user with no stored coordinates. -/
def exUser : GeoUser := { id := 10, latitude := none, longitude := none }

/-- An available provider. -/
def exProvider : ProviderRec :=
  { id := 1, userId := 10, isAvailable := true, averageRating := 5, user := exUser }

/-- An active 60-minute service of `exProvider`. -/
def exService : ServiceRec :=
  { id := 1, categoryName := "Cleaning", basePrice := 50, duration := 60,
    isActive := true, createdAt := 0, provider := exProvider }

/-- A CONFIRMED booking of `exProvider` at 10:00 for 60 minutes on
2024-06-01. -/
def exBooking : BookingRec :=
  { id := 1, bookingId := "b-1", customerId := 2, serviceId := 1, providerId := 1,
    scheduledDate := "2024-06-01", scheduledTime := "10:00", duration := 60,
    totalPrice := 50, status := .CONFIRMED, notes := none, cancellationReason := none }

/-- Database with one service, one provider and the 10:00 booking. -/
def exDb : BookingsDb :=
  { services := [exService], providers := [exProvider], bookings := [exBooking] }

/-- The 10:00 booking after cancellation with reason "sick". -/
def exCancelledBooking : BookingRec :=
  { exBooking with status := .CANCELLED, cancellationReason := some "sick" }

/-- A provider user at coordinates (2, 2). -/
def exGeoA : GeoUser := { id := 21, latitude := some 2, longitude := some 2 }

/-- A provider user at coordinates (5, 5). -/
def exGeoB : GeoUser := { id := 22, latitude := some 5, longitude := some 5 }

/-- A provider user whose stored latitude is exactly 0. -/
def exGeoZ : GeoUser := { id := 23, latitude := some 0, longitude := some 3 }

/-- Available provider with user `exGeoA`. -/
def exProviderA : ProviderRec :=
  { id := 31, userId := 21, isAvailable := true, averageRating := 4, user := exGeoA }

/-- Available provider with user `exGeoB`. -/
def exProviderB : ProviderRec :=
  { id := 32, userId := 22, isAvailable := true, averageRating := 4, user := exGeoB }

/-- A second available provider co-located with `exGeoB`. -/
def exProviderB2 : ProviderRec :=
  { id := 34, userId := 24, isAvailable := true, averageRating := 4, user := exGeoB }

/-- Available provider with the zero-latitude user `exGeoZ`. -/
def exProviderZ : ProviderRec :=
  { id := 33, userId := 23, isAvailable := true, averageRating := 4, user := exGeoZ }

/-- Active service of `exProviderA`. -/
def exSvcA : ServiceRec :=
  { id := 41, categoryName := "Plumbing", basePrice := 30, duration := 60,
    isActive := true, createdAt := 5, provider := exProviderA }

/-- Active service of `exProviderB`. -/
def exSvcB : ServiceRec :=
  { id := 42, categoryName := "Plumbing", basePrice := 40, duration := 60,
    isActive := true, createdAt := 6, provider := exProviderB }

/-- Active service of `exProviderB2`. -/
def exSvcB2 : ServiceRec :=
  { id := 44, categoryName := "Plumbing", basePrice := 45, duration := 60,
    isActive := true, createdAt := 8, provider := exProviderB2 }

/-- Active service of the zero-latitude provider `exProviderZ`. -/
def exSvcZ : ServiceRec :=
  { id := 43, categoryName := "Plumbing", basePrice := 20, duration := 30,
    isActive := true, createdAt := 7, provider := exProviderZ }

/-- A distance function placing the (5, 5) providers at the origin
(distance exactly 0) and everyone else at distance 3. -/
def exCalc : ℚ → ℚ → ℚ → ℚ → ℚ := fun _ _ plat _ => if plat = 5 then 0 else 3

/-- A distance function placing every provider 100 km away. -/
def exCalcFar : ℚ → ℚ → ℚ → ℚ → ℚ := fun _ _ _ _ => 100

/-- A search query with origin coordinates supplied and every optional
filter absent. -/
def exQueryBase : SearchQuery :=
  { category := none, minRating := 0, maxDistance := none, minPrice := none,
    maxPrice := none, latitude := some 1, longitude := some 1,
    sortBy := .newest, page := 1, limit := 20 }

/-- `exQueryBase` with `maxDistance=1` and a one-row page. -/
def exQueryC4 : SearchQuery := { exQueryBase with maxDistance := some 1, limit := 1 }

/-- `exQueryBase` with a generous `maxDistance`. -/
def exQueryMaxD : SearchQuery := { exQueryBase with maxDistance := some 10 }

/-- `exQueryBase` sorted by distance. -/
def exQueryDist : SearchQuery := { exQueryBase with sortBy := .distance }

/-! ## Theorems -/

set_option maxRecDepth 4000

/-- C5: for a service with duration 60 and a single CONFIRMED booking at
"10:00" for 60 minutes on the queried date, the availability output (the
30-minute grid from 09:00 inclusive to 18:00 exclusive, emitting only
available slots, each tagged `available = true`) contains "09:00" and
"11:00" but neither "10:00" nor "10:30". -/
theorem c5_availability_example :
    ("09:00" ∈ ((getAvailability exDb 1 "2024-06-01").slots.map TimeSlotOut.time) ∧
     "11:00" ∈ ((getAvailability exDb 1 "2024-06-01").slots.map TimeSlotOut.time)) ∧
    ("10:00" ∉ ((getAvailability exDb 1 "2024-06-01").slots.map TimeSlotOut.time) ∧
     "10:30" ∉ ((getAvailability exDb 1 "2024-06-01").slots.map TimeSlotOut.time)) ∧
    (∀ s ∈ (getAvailability exDb 1 "2024-06-01").slots, s.available = true) ∧
    ((getAvailability exDb 1 "2024-06-01").slots.map TimeSlotOut.time ⊆ slotTimes) := by
  decide

/-- C2: the intended no-overlap invariant is NOT preserved by booking
creation.  Starting from a state satisfying the invariant (one CONFIRMED
booking at 10:00 for 60 minutes), a request for 09:30 with the same
60-minute service passes the conflict check (the weak predicate only
catches existing bookings with `scheduledTime <= "09:30"`), is persisted
with a 201 outcome, and the resulting state holds two overlapping active
bookings of the same provider on the same date. -/
theorem c2_creation_violates_no_overlap :
    noOverlapInvariant exDb.bookings ∧
    (createBooking exDb 2 "b-2" 3 1 "2024-06-01" "09:30" none none).1.statusCode = 201 ∧
    overlapsIntervals (parseHHMM "09:30") 60 (parseHHMM "10:00") 60 ∧
    ¬ noOverlapInvariant
        (createBooking exDb 2 "b-2" 3 1 "2024-06-01" "09:30" none none).2.1.bookings := by
  decide

/-- C6: for every successful `PATCH /:bookingId/status` transition, the
persisted `cancellationReason` equals the supplied reason when the target
status is CANCELLED, and is cleared to `null` for every other target
status; the updated row is persisted in the new state. -/
theorem c6_cancellation_reason (db : BookingsDb) (bookingId : String)
    (status : BookingStatus) (reason : Option String) (userId : Nat)
    (sock : Option SocketServer) (b : BookingRec)
    (h : (updateBookingStatus db bookingId status reason userId sock).1 = .updated b) :
    (status = .CANCELLED → ∀ r, reason = some r → b.cancellationReason = some r) ∧
    (status ≠ .CANCELLED → b.cancellationReason = none) ∧
    b ∈ (updateBookingStatus db bookingId status reason userId sock).2.1.bookings := by
  cases hfind : db.bookings.find? (ownedBookingWith db bookingId userId) with
  | none =>
      rw [updateBookingStatus, hfind] at h
      simp at h
  | some booking =>
      rw [updateBookingStatus, hfind] at h
      simp only [UpdateResult.updated.injEq] at h
      subst h
      refine ⟨?_, ?_, ?_⟩
      · intro hc r hr
        simp [hc, hr]
      · intro hc
        simp [hc]
      · rw [updateBookingStatus, hfind]
        refine List.mem_map.mpr ⟨booking, List.mem_of_find?_eq_some hfind, ?_⟩
        simp

/-- Witness for C6: cancelling the 10:00 booking with reason "sick"
persists exactly that reason. -/
theorem c6_cancellation_reason_witness :
    (BookingStatus.CANCELLED = .CANCELLED → ∀ r, (some "sick" : Option String) = some r →
      exCancelledBooking.cancellationReason = some r) ∧
    (BookingStatus.CANCELLED ≠ .CANCELLED → exCancelledBooking.cancellationReason = none) ∧
    exCancelledBooking ∈
      (updateBookingStatus exDb "b-1" .CANCELLED (some "sick") 10 none).2.1.bookings :=
  c6_cancellation_reason exDb "b-1" .CANCELLED (some "sick") 10 none
    exCancelledBooking (by decide)

/-- C7: a status-update request naming a `bookingId` that does not exist,
or whose booking is not owned by a provider associated with the caller,
yields 404 "Booking not found" and leaves the stored bookings unchanged. -/
theorem c7_foreign_update_404 (db : BookingsDb) (bookingId : String)
    (status : BookingStatus) (reason : Option String) (userId : Nat)
    (sock : Option SocketServer)
    (h : ∀ b ∈ db.bookings, b.bookingId = bookingId →
        ¬ ∃ p ∈ db.providers, p.id = b.providerId ∧ p.userId = userId) :
    (updateBookingStatus db bookingId status reason userId sock).1 = .notFound "Booking not found" ∧
    (updateBookingStatus db bookingId status reason userId sock).2.1 = db := by
  have hfind : db.bookings.find? (ownedBookingWith db bookingId userId) = none := by
    refine List.find?_eq_none.mpr (fun b hb hp => ?_)
    rw [ownedBookingWith] at hp
    simp only [Bool.and_eq_true, beq_iff_eq, List.any_eq_true] at hp
    exact h b hb hp.1 ⟨hp.2.choose, hp.2.choose_spec.1,
      by simpa using hp.2.choose_spec.2⟩
  rw [updateBookingStatus, hfind]
  exact ⟨rfl, rfl⟩

/-- Witness for C7: user 999 is not the user of the provider owning
booking "b-1", so the update is a 404 and the state is unchanged. -/
theorem c7_foreign_update_404_witness :
    (updateBookingStatus exDb "b-1" .CONFIRMED none 999 none).1
      = .notFound "Booking not found" ∧
    (updateBookingStatus exDb "b-1" .CONFIRMED none 999 none).2.1 = exDb :=
  c7_foreign_update_404 exDb "b-1" .CONFIRMED none 999 none (by decide)

/-- C8: the HTTP outcome and the persisted state of booking creation are
independent of the socket-module state, so a request that persists a
booking is answered 201 with the created booking even when the realtime
emission fails because the socket server is uninitialised and `getIO`
throws (`getIO none` is exactly that error). -/
theorem c8_socket_failure_isolated (db : BookingsDb) (newId : Nat) (newUuid : String)
    (customerId serviceId : Nat) (scheduledDate scheduledTime : String)
    (notes : Option String) (sock : Option SocketServer) :
    ( getIO (none : Option SocketServer) = Except.error "Socket.io not initialized") ∧
    (createBooking db newId newUuid customerId serviceId scheduledDate scheduledTime notes sock).1
      = (createBooking db newId newUuid customerId serviceId scheduledDate scheduledTime notes none).1 ∧
    (createBooking db newId newUuid customerId serviceId scheduledDate scheduledTime notes sock).2.1
      = (createBooking db newId newUuid customerId serviceId scheduledDate scheduledTime notes none).2.1 ∧
    (∀ b, (createBooking db newId newUuid customerId serviceId scheduledDate scheduledTime notes none).1 = .created b →
      (createBooking db newId newUuid customerId serviceId scheduledDate scheduledTime notes none).1.statusCode = 201) := by
  refine ⟨rfl, ?_, ?_, fun b hb => by rw [hb]; rfl⟩ <;>
  · cases hfind : db.services.find? (fun s => s.id == serviceId && s.isActive) with
    | none => simp [createBooking, hfind]
    | some service =>
        simp only [createBooking, hfind]
        split
        · rfl
        · split <;> rfl

/-- Witness for C8: creating a 09:30 booking against `exDb` yields the
same 201 outcome whether or not the socket server is initialised. -/
theorem c8_socket_failure_isolated_witness :
    (createBooking exDb 2 "b-2" 3 1 "2024-06-01" "09:30" none (some ⟨7⟩)).1
      = (createBooking exDb 2 "b-2" 3 1 "2024-06-01" "09:30" none none).1 ∧
    (createBooking exDb 2 "b-2" 3 1 "2024-06-01" "09:30" none none).1.statusCode = 201 :=
  ⟨(c8_socket_failure_isolated exDb 2 "b-2" 3 1 "2024-06-01" "09:30" none (some ⟨7⟩)).2.1,
   (c8_socket_failure_isolated exDb 2 "b-2" 3 1 "2024-06-01" "09:30" none (some ⟨7⟩)).2.2.2
     { id := 2, bookingId := "b-2", customerId := 3, serviceId := 1, providerId := 1,
       scheduledDate := "2024-06-01", scheduledTime := "09:30", duration := 60,
       totalPrice := 50, status := .PENDING, notes := none, cancellationReason := none }
     (by decide)⟩

/-- Irreflexivity of the lexicographic strict comparison. -/
theorem strLtb_self (l : List Char) : strLtb l l = false := by
  induction l with
  | nil => rfl
  | cons a as ih => simp [strLtb, if_neg (lt_irrefl a), ih]

/-- The string `lte` filter is reflexive: an identical `scheduledTime`
always matches. -/
theorem strLe_refl (s : String) : strLe s s = true := by
  simp [strLe, strLtb_self]

/-- The conflict-query predicate, unfolded to its propositional form. -/
theorem conflictsWith_iff (pid : Nat) (d t : String) (b : BookingRec) :
    conflictsWith pid d t b = true ↔
    (b.providerId = pid ∧ b.scheduledDate = d ∧ b.status ∈ activeStatuses ∧
      strLe b.scheduledTime t = true) := by
  simp [conflictsWith, and_assoc]

/-- C3: for a request naming an existing active service whose provider is
available, creation is rejected 400 "Time slot is not available" exactly
when some existing booking of the same provider and `scheduledDate` with
status in {PENDING, CONFIRMED, IN_PROGRESS} has `scheduledTime` ≤ the
requested time under lexicographic string comparison; nothing is
persisted on rejection; and a second booking with identical provider,
date and time is always rejected. -/
theorem c3_weak_conflict_predicate (db : BookingsDb) (newId : Nat) (newUuid : String)
    (customerId serviceId : Nat) (scheduledDate scheduledTime : String)
    (notes : Option String) (sock : Option SocketServer) (service : ServiceRec)
    (hsvc : db.services.find? (fun s => s.id == serviceId && s.isActive) = some service)
    (havail : service.provider.isAvailable = true) :
    ((createBooking db newId newUuid customerId serviceId scheduledDate scheduledTime notes sock).1
        = .badRequest "Time slot is not available" ↔
      ∃ b ∈ db.bookings, b.providerId = service.provider.id ∧ b.scheduledDate = scheduledDate ∧
        b.status ∈ activeStatuses ∧ strLe b.scheduledTime scheduledTime = true) ∧
    ((createBooking db newId newUuid customerId serviceId scheduledDate scheduledTime notes sock).1
        = .badRequest "Time slot is not available" →
      (createBooking db newId newUuid customerId serviceId scheduledDate scheduledTime notes sock).2.1 = db) ∧
    (∀ b0 ∈ db.bookings, b0.providerId = service.provider.id → b0.scheduledDate = scheduledDate →
      b0.scheduledTime = scheduledTime → b0.status ∈ activeStatuses →
      (createBooking db newId newUuid customerId serviceId scheduledDate scheduledTime notes sock).1
        = .badRequest "Time slot is not available") := by
  have hmem : ∀ b : BookingRec, b ∈ db.bookings.filter
      (conflictsWith service.provider.id scheduledDate scheduledTime) ↔
      (b ∈ db.bookings ∧ b.providerId = service.provider.id ∧ b.scheduledDate = scheduledDate ∧
        b.status ∈ activeStatuses ∧ strLe b.scheduledTime scheduledTime = true) := by
    intro b
    rw [List.mem_filter, conflictsWith_iff]
  by_cases hc : 0 < (db.bookings.filter
      (conflictsWith service.provider.id scheduledDate scheduledTime)).length
  · have hres : (createBooking db newId newUuid customerId serviceId scheduledDate scheduledTime notes sock)
        = (.badRequest "Time slot is not available", db, []) := by
      simp only [createBooking, hsvc, havail]
      simp [hc]
    rw [hres]
    refine ⟨⟨fun _ => ?_, fun _ => rfl⟩, fun _ => rfl, fun _ _ _ _ _ _ => rfl⟩
    · obtain ⟨b, hb⟩ := List.exists_mem_of_length_pos hc
      exact ⟨b, ((hmem b).mp hb).1, ((hmem b).mp hb).2⟩
  · have hempty : db.bookings.filter
        (conflictsWith service.provider.id scheduledDate scheduledTime) = [] := by
      cases h : db.bookings.filter (conflictsWith service.provider.id scheduledDate scheduledTime) with
      | nil => rfl
      | cons x xs => exact absurd (h ▸ List.length_pos.mpr (by simp)) hc
    have hres : ∃ bk, (createBooking db newId newUuid customerId serviceId scheduledDate scheduledTime notes sock).1
        = .created bk := by
      simp only [createBooking, hsvc, havail]
      simp [hc]
    obtain ⟨bk, hres⟩ := hres
    refine ⟨⟨fun h => ?_, fun h => ?_⟩, fun h => ?_, fun b0 hb0 h1 h2 h3 h4 => ?_⟩
    · rw [hres] at h; exact absurd h (by simp)
    · obtain ⟨b, hb, hprops⟩ := h
      have : b ∈ db.bookings.filter (conflictsWith service.provider.id scheduledDate scheduledTime) :=
        (hmem b).mpr ⟨hb, hprops⟩
      rw [hempty] at this
      exact absurd this (List.not_mem_nil b)
    · rw [hres] at h; exact absurd h (by simp)
    · have : b0 ∈ db.bookings.filter (conflictsWith service.provider.id scheduledDate scheduledTime) :=
        (hmem b0).mpr ⟨hb0, h1, h2, h4, h3 ▸ strLe_refl scheduledTime⟩
      rw [hempty] at this
      exact absurd this (List.not_mem_nil b0)

/-- Witness for C3: requesting 10:00 on 2024-06-01 against `exDb` (which
already holds a CONFIRMED 10:00 booking of the same provider) is rejected
with "Time slot is not available". -/
theorem c3_weak_conflict_predicate_witness :
    (createBooking exDb 2 "b-2" 3 1 "2024-06-01" "10:00" none none).1
      = .badRequest "Time slot is not available" :=
  (c3_weak_conflict_predicate exDb 2 "b-2" 3 1 "2024-06-01" "10:00" none none
      exService (by decide) (by decide)).2.2 exBooking (by decide) (by decide)
    (by decide) (by decide) (by decide)

/-- C1: the availability endpoint never returns a slot whose interval
`[slotStart, slotStart + serviceDuration)` overlaps, on an open-interval
basis, the interval `[bookingStart, bookingStart + bookingDuration)` of
any of the provider's CONFIRMED or IN_PROGRESS bookings on the queried
date. -/
theorem c1_availability_no_overlap (db : BookingsDb) (serviceId : Nat) (date : String)
    (service : ServiceRec) (slot : TimeSlotOut) (b : BookingRec)
    (hsvc : db.services.find? (fun s => s.id == serviceId && s.isActive) = some service)
    (hslot : slot ∈ (getAvailability db serviceId date).slots)
    (hb : b ∈ db.bookings) (hprov : b.providerId = service.provider.id)
    (hdate : b.scheduledDate = date)
    (hstat : b.status = .CONFIRMED ∨ b.status = .IN_PROGRESS) :
    ¬ (parseHHMM slot.time < parseHHMM b.scheduledTime + b.duration ∧
       parseHHMM b.scheduledTime < parseHHMM slot.time + service.duration) := by
  rw [getAvailability, hsvc] at hslot
  simp only [AvailabilityResult.slots, timeSlotsFor] at hslot
  obtain ⟨time, htime, heq⟩ := List.mem_filterMap.mp hslot
  by_cases hav : ((db.bookings.filter (fun b =>
      b.providerId == service.provider.id && b.scheduledDate == date &&
      [BookingStatus.CONFIRMED, BookingStatus.IN_PROGRESS].contains b.status)).map
        (fun b => (b.scheduledTime, b.duration))).any
          (slotConflicts service.duration time) = true
  · rw [hav] at heq
    simp at heq
  · have hslotval : slot = { time := time, available := true } := by
      rw [Bool.not_eq_true] at hav
      rw [hav] at heq
      simp at heq
      exact heq.symm
    have hmemb : (b.scheduledTime, b.duration) ∈ (db.bookings.filter (fun b =>
        b.providerId == service.provider.id && b.scheduledDate == date &&
        [BookingStatus.CONFIRMED, BookingStatus.IN_PROGRESS].contains b.status)).map
          (fun b => (b.scheduledTime, b.duration)) := by
      refine List.mem_map.mpr ⟨b, List.mem_filter.mpr ⟨hb, ?_⟩, rfl⟩
      rcases hstat with h | h <;> simp [hprov, hdate, h]
    have hfalse : slotConflicts service.duration time (b.scheduledTime, b.duration) = false := by
      rw [Bool.not_eq_true] at hav
      exact Bool.not_eq_true _ ▸ (List.any_eq_false.mp hav _ hmemb)
    rw [hslotval]
    intro hcon
    rw [slotConflicts] at hfalse
    simp only [Bool.and_eq_false_iff, decide_eq_false_iff_not, not_lt] at hfalse
    rcases hfalse with h | h
    · exact absurd hcon.1 (not_lt.mpr h)
    · exact absurd hcon.2 (not_lt.mpr h)

/-- Witness for C1: the 09:00 slot returned against `exDb` does not
overlap the CONFIRMED 10:00 booking. -/
theorem c1_availability_no_overlap_witness :
    ¬ (parseHHMM "09:00" < parseHHMM "10:00" + 60 ∧
       parseHHMM "10:00" < parseHHMM "09:00" + 60) :=
  c1_availability_no_overlap exDb 1 "2024-06-01" exService
    { time := "09:00", available := true } exBooking
    (by decide) (by decide) (by decide) (by decide) (by decide) (Or.inl (by decide))

/-- C4: with origin coordinates and `maxDistance` supplied, `totalCount`
is computed over the pre-distance-filter where-clause, every returned
service comes from the already-paginated page (skip/take applied before
the distance filter), and consequently a page can return strictly fewer
services than the pagination metadata accounts for (shown concretely:
a full one-row page whose only row the distance filter then removes). -/
theorem c4_pagination_before_distance_filter :
    (∀ (calcDist : ℚ → ℚ → ℚ → ℚ → ℚ) (db : List ServiceRec) (q : SearchQuery) (lat lon maxD : ℚ),
      q.latitude = some lat → q.longitude = some lon → q.maxDistance = some maxD →
      (searchServices calcDist db q).pagination.totalCount = (db.filter (matchesWhere q)).length ∧
      ∀ out ∈ (searchServices calcDist db q).services,
        out.service ∈ ((db.filter (matchesWhere q)).drop ((q.page - 1) * q.limit)).take q.limit) ∧
    (searchServices exCalcFar [exSvcA, exSvcB] exQueryC4).services.length <
      min exQueryC4.limit ((searchServices exCalcFar [exSvcA, exSvcB] exQueryC4).pagination.totalCount
        - (exQueryC4.page - 1) * exQueryC4.limit) := by
  refine ⟨fun calcDist db q lat lon maxD hlat hlon hmaxd => ⟨rfl, fun out hout => ?_⟩, by decide⟩
  simp only [searchServices, hlat, hlon, hmaxd] at hout
  cases hq : q.sortBy <;> simp only [hq] at hout <;>
    rw [List.mem_insertionSort] at hout <;>
  · obtain ⟨s1, hs1, rfl⟩ := List.mem_map.mp hout
    have hs0 := List.mem_of_mem_filter hs1
    obtain ⟨p, hp, rfl⟩ := List.mem_map.mp hs0
    exact hp

/-- Witness for C4: the concrete two-service database, page size 1, with
every provider 100 km away and `maxDistance = 1`. -/
theorem c4_pagination_before_distance_filter_witness :
    (searchServices exCalcFar [exSvcA, exSvcB] exQueryC4).pagination.totalCount
      = ([exSvcA, exSvcB].filter (matchesWhere exQueryC4)).length ∧
    ∀ out ∈ (searchServices exCalcFar [exSvcA, exSvcB] exQueryC4).services,
      out.service ∈ (([exSvcA, exSvcB].filter (matchesWhere exQueryC4)).drop
        ((exQueryC4.page - 1) * exQueryC4.limit)).take exQueryC4.limit :=
  c4_pagination_before_distance_filter.1 exCalcFar [exSvcA, exSvcB] exQueryC4 1 1 1 rfl rfl rfl

/-- Truthiness of a nullable rational implies it is neither `null` nor 0. -/
theorem jsTruthyQ_ne (o : Option ℚ) (h : jsTruthyQ o = true) : o ≠ none ∧ o ≠ some 0 := by
  cases o with
  | none => exact absurd h (by simp [jsTruthyQ])
  | some v =>
      simp only [jsTruthyQ, bne_iff_ne, ne_eq] at h
      exact ⟨by simp, fun hc => h (Option.some.inj hc)⟩

/-- C9: under an active distance filter (latitude, longitude and
`maxDistance` supplied), no returned service has a missing or exactly-zero
provider coordinate (the falsy check drops them like missing ones); and
with only latitude/longitude supplied, such a service's attached
`distance` is `null` rather than a computed value. -/
theorem c9_zero_coordinate_like_missing :
    (∀ (calcDist : ℚ → ℚ → ℚ → ℚ → ℚ) (db : List ServiceRec) (q : SearchQuery) (lat lon maxD : ℚ),
      q.latitude = some lat → q.longitude = some lon → q.maxDistance = some maxD →
      ∀ out ∈ (searchServices calcDist db q).services,
        out.service.provider.user.latitude ≠ none ∧
        out.service.provider.user.latitude ≠ some 0 ∧
        out.service.provider.user.longitude ≠ none ∧
        out.service.provider.user.longitude ≠ some 0) ∧
    (∀ (calcDist : ℚ → ℚ → ℚ → ℚ → ℚ) (db : List ServiceRec) (q : SearchQuery) (lat lon : ℚ),
      q.latitude = some lat → q.longitude = some lon → q.maxDistance = none →
      ∀ out ∈ (searchServices calcDist db q).services,
      (out.service.provider.user.latitude = none ∨ out.service.provider.user.latitude = some 0 ∨
       out.service.provider.user.longitude = none ∨ out.service.provider.user.longitude = some 0) →
      out.distance = none) := by
  constructor
  · intro calcDist db q lat lon maxD hlat hlon hmaxd out hout
    simp only [searchServices, hlat, hlon, hmaxd] at hout
    cases hq : q.sortBy <;> simp only [hq] at hout <;>
      rw [List.mem_insertionSort] at hout <;>
    · obtain ⟨s1, hs1, rfl⟩ := List.mem_map.mp hout
      have hpred := (List.mem_filter.mp hs1).2
      simp only [Bool.and_eq_true] at hpred
      obtain ⟨⟨hplat, hplon⟩, _⟩ := hpred
      obtain ⟨h1, h2⟩ := jsTruthyQ_ne _ hplat
      obtain ⟨h3, h4⟩ := jsTruthyQ_ne _ hplon
      exact ⟨h1, h2, h3, h4⟩
  · intro calcDist db q lat lon hlat hlon hmaxd out hout hzero
    simp only [searchServices, hlat, hlon, hmaxd] at hout
    cases hq : q.sortBy <;> simp only [hq] at hout <;>
      rw [List.mem_insertionSort] at hout <;>
    · obtain ⟨s1, hs1, rfl⟩ := List.mem_map.mp hout
      simp only at hzero ⊢
      have hfalse : (jsTruthyQ s1.service.provider.user.latitude &&
          jsTruthyQ s1.service.provider.user.longitude) = false := by
        rcases hzero with h | h | h | h <;> simp [h, jsTruthyQ]
      simp [hfalse]

/-- C10: under `sortBy=distance` with origin coordinates supplied, every
service placed after a service whose computed distance is exactly 0 also
has an Infinity sort key (`a.distance || Infinity` treats 0 as falsy), so
a zero-distance service is placed after every positive-distance one —
shown concretely: a zero-distance service listed first in the database is
sorted behind the distance-3 service. -/
theorem c10_zero_distance_sorts_last :
    (∀ (calcDist : ℚ → ℚ → ℚ → ℚ → ℚ) (db : List ServiceRec) (q : SearchQuery)
       (lat lon : ℚ) (l1 l2 : List ServiceOut) (x : ServiceOut),
      q.sortBy = .distance → q.latitude = some lat → q.longitude = some lon →
      (searchServices calcDist db q).services = l1 ++ x :: l2 →
      x.distance = some 0 →
      ∀ y ∈ l2, jsOrInf y.distance = ⊤) ∧
    (searchServices exCalc [exSvcB, exSvcA, exSvcB2] exQueryDist).services
      = [{ service := exSvcA, distance := some 3 }, { service := exSvcB, distance := some 0 },
         { service := exSvcB2, distance := some 0 }] := by
  refine ⟨fun calcDist db q lat lon l1 l2 x hsort hlat hlon hdecomp hx y hy => ?_, by decide⟩
  haveI htot : IsTotal ServiceOut (fun a b => jsOrInf a.distance ≤ jsOrInf b.distance) :=
    ⟨fun a b => le_total _ _⟩
  haveI htr : IsTrans ServiceOut (fun a b => jsOrInf a.distance ≤ jsOrInf b.distance) :=
    ⟨fun a b c hab hbc => le_trans hab hbc⟩
  simp only [searchServices, hsort, hlat, hlon] at hdecomp
  have hsorted : List.Sorted (fun a b : ServiceOut => jsOrInf a.distance ≤ jsOrInf b.distance)
      (l1 ++ x :: l2) := by
    rw [← hdecomp]
    exact List.sorted_insertionSort _ _
  have hpair := (List.pairwise_append.mp hsorted).2.1
  have hr := (List.pairwise_cons.mp hpair).1 y hy
  rw [hx] at hr
  simp only [jsOrInf, if_pos rfl] at hr
  exact top_le_iff.mp hr

/-- Witness for C9: the zero-latitude provider's service is subject to
both behaviours: the filtered search returns nothing containing it, and
the unfiltered search attaches `distance = null` to it. -/
theorem c9_zero_coordinate_like_missing_witness :
    (∀ out ∈ (searchServices exCalc [exSvcZ] exQueryMaxD).services,
        out.service.provider.user.latitude ≠ none ∧
        out.service.provider.user.latitude ≠ some 0 ∧
        out.service.provider.user.longitude ≠ none ∧
        out.service.provider.user.longitude ≠ some 0) ∧
    ({ service := exSvcZ, distance := none } : ServiceOut).distance = none :=
  ⟨c9_zero_coordinate_like_missing.1 exCalc [exSvcZ] exQueryMaxD 1 1 10 rfl rfl rfl,
   c9_zero_coordinate_like_missing.2 exCalc [exSvcZ] exQueryBase 1 1 rfl rfl rfl
     { service := exSvcZ, distance := none } (by decide) (Or.inr (Or.inl rfl))⟩

/-- Witness for C10: in the concrete three-service search the element
after the zero-distance service also carries an Infinity key. -/
theorem c10_zero_distance_sorts_last_witness :
    ∀ y ∈ [({ service := exSvcB2, distance := some 0 } : ServiceOut)],
      jsOrInf y.distance = ⊤ :=
  c10_zero_distance_sorts_last.1 exCalc [exSvcB, exSvcA, exSvcB2] exQueryDist 1 1
    [{ service := exSvcA, distance := some 3 }] [{ service := exSvcB2, distance := some 0 }]
    { service := exSvcB, distance := some 0 } rfl rfl rfl (by decide) rfl

end ServicePlatform
